import Mathlib

/-!
Verification development for the Property-Prediction repository.

Shallow embedding conventions:
- Python floats are modelled as exact rationals (`ℚ`); no claim settled here
  depends on IEEE-754 rounding.
- External collaborators (the comparables SQLite store, the network macro
  fetchers, the wall clock, the SGD regressors from scikit-learn) are
  modelled as parameters: DB rows and months-since-sale figures are inputs,
  and the raw regressor outputs are inputs to the model step, since every
  claim in scope is independent of the learned weights.
- Transcendental helpers (`math.exp`, `math.sqrt`, `(1+g) ** t`) are passed
  in as function parameters; every theorem quantifies over them, so no
  conclusion depends on their values.
- Python `round(x, n)` is modelled as round-half-up on rationals; no claim
  exercises an exact half-way tie, where Python would round half-to-even.
-/

set_option maxHeartbeats 1000000

/-- Python `int(x)` truncation toward zero on a rational. -/
def pyInt (x : ℚ) : ℤ := if 0 ≤ x then ⌊x⌋ else ⌈x⌉

/-- Python `round(x, n)` modelled as round-half-up to `n` decimal places. -/
def roundTo (n : ℕ) (x : ℚ) : ℚ := (round (x * (10 : ℚ) ^ n) : ℤ) / (10 : ℚ) ^ n

/-- Arithmetic mean of a list, `statistics.mean` / `np.mean` on rationals. -/
def listMean (l : List ℚ) : ℚ := l.sum / (l.length : ℚ)

/-- Price direction strings "UP" / "DOWN" / "SIDEWAYS" used by both pipeline
variants. -/
inductive Direction where
  | up
  | down
  | sideways
deriving DecidableEq, Repr

/-- Investment signal strings "BUY" / "HOLD" / "SELL". -/
inductive Signal where
  | buy
  | hold
  | sell
deriving DecidableEq, Repr

namespace Scorecard

/-! Embedding of `src/propertyscorecard_core.py` (the root scorecard engine):
`quantile`, `median`, `filter_outliers_iqr`, `estimate_value_from_comps`. -/

/-- Python `sorted(values)` for rationals. -/
def sortedAsc (l : List ℚ) : List ℚ := l.insertionSort (· ≤ ·)

/-- `quantile(values, q)` from propertyscorecard_core.py: linear
interpolation between order statistics; `int()` truncation is exact floor
here because the only call sites use `q ∈ {0.25, 0.75}`, so the index is
nonnegative. -/
def quantile (values : List ℚ) (q : ℚ) : ℚ :=
  if values = [] then 0
  else
    let s := sortedAsc values
    let idx : ℚ := ((s.length - 1 : ℕ) : ℚ) * q
    let lo : ℕ := (pyInt idx).toNat
    let hi : ℕ := min (lo + 1) (s.length - 1)
    let frac : ℚ := idx - (lo : ℚ)
    s.getD lo 0 + frac * (s.getD hi 0 - s.getD lo 0)

/-- `median(values)` from propertyscorecard_core.py, delegating to
`statistics.median`: middle element for odd length, mean of the two middle
elements for even length, `0.0` for the empty list. -/
def median (values : List ℚ) : ℚ :=
  if values = [] then 0
  else
    let s := sortedAsc values
    let n := s.length
    if n % 2 = 1 then s.getD (n / 2) 0
    else (s.getD (n / 2 - 1) 0 + s.getD (n / 2) 0) / 2

/-- `filter_outliers_iqr(prices)` from propertyscorecard_core.py lines
260-270: drop prices outside `Q1 - 1.5*IQR .. Q3 + 1.5*IQR`, leave short
lists untouched, and fall back to the unfiltered list rather than return
an empty one. -/
def filter_outliers_iqr (prices : List ℚ) : List ℚ :=
  if prices.length < 4 then prices
  else
    let q1 := quantile prices (1 / 4)
    let q3 := quantile prices (3 / 4)
    let iqr := q3 - q1
    let lo := q1 - (3 / 2) * iqr
    let hi := q3 + (3 / 2) * iqr
    let filtered := prices.filter (fun p => decide (lo ≤ p ∧ p ≤ hi))
    if filtered = [] then prices else filtered

/-- Result dictionary of `estimate_value_from_comps`. -/
structure ValueEstimate where
  comp_count : ℕ
  fair_value_low : ℤ
  fair_value_mid : ℤ
  fair_value_high : ℤ
deriving DecidableEq, Repr

/-- `estimate_value_from_comps(comps, floor_area_sqm)` from
propertyscorecard_core.py lines 355-385. A comp is modelled by its price
field only (`none` = attribute missing, which Python turns into the falsy
default `0`); nothing else of a comp is read by this function. `sqrtFn`
abstracts `math.sqrt` in the light-touch size adjustment. -/
def estimate_value_from_comps (sqrtFn : ℚ → ℚ) (comps : List (Option ℚ))
    (floor_area_sqm : Option ℚ) : Option ValueEstimate :=
  if comps = [] then none
  else
    let prices := (comps.map (fun c => c.getD 0)).filter
      (fun p => decide (¬ p = 0 ∧ 10000 < p))
    if prices = [] then none
    else
      let prices1 := filter_outliers_iqr prices
      let prices2 :=
        match floor_area_sqm with
        | some fa =>
            if ¬ fa = 0 ∧ 20 < fa then
              let adj := max 0.92 (min 1.10 (sqrtFn (fa / 68)))
              prices1.map (fun p => p * adj)
            else prices1
        | none => prices1
      some ⟨prices2.length, pyInt (quantile prices2 (1 / 4)),
            pyInt (median prices2), pyInt (quantile prices2 (3 / 4))⟩

end Scorecard

namespace ScorecardCore

/-! Embedding of `src/predictelligence-property/propertyscorecard_core.py`:
`USER_MULTIPLIERS`, `PROPERTY_TYPE_PREMIUM`, `_engineer_valuation_features`,
`estimate_property_value`, `generate_risk_flags`, `calculate_deal_verdict`,
`generate_negotiation_strategy`. -/

/-- `USER_MULTIPLIERS.get(user_type, 1.0)`. -/
def userMultiplier (u : String) : ℚ :=
  if u = "investor" then 0.99
  else if u = "first_time_buyer" then 1.00
  else if u = "home_mover" then 1.01
  else 1

/-- `PROPERTY_TYPE_PREMIUM.get(t, 0.0)`. -/
def propertyTypePremium (t : String) : ℚ :=
  if t = "detached" then 0.12
  else if t = "semi-detached" then 0.04
  else if t = "terraced" then -0.02
  else if t = "flat" then -0.10
  else 0

/-- A comparable DB row as read by `_engineer_valuation_features`.
`monthsOld` stands for `_months_since(row["date_sold"])`, which depends on
the wall clock and is therefore an input here; `price`/`bedrooms` are
`none` when the column is missing. -/
structure CompRow where
  price : Option ℚ
  monthsOld : ℚ
  bedrooms : Option ℤ
  propertyType : String
deriving DecidableEq, Repr

/-- `_engineer_valuation_features(postcode, property_type, bedrooms,
comparable_rows)` (lines 67-114). Returns `(weighted_mean,
comparable_average, confidence, used)`. The transcendental helpers are
parameters: `timeAdjFn` abstracts `_time_adjustment` (a real power),
`weightFn` abstracts `_comparable_weight` (exponential decays, applied to
`(subject_postcode, subject_bedrooms, row)` exactly as in the source), and
`sqrtFn` abstracts the square root inside `statistics.pstdev`. -/
def engineer_valuation_features (timeAdjFn : ℚ → ℚ)
    (weightFn : String → ℤ → CompRow → ℚ) (sqrtFn : ℚ → ℚ)
    (postcode property_type : String) (bedrooms : ℤ)
    (comparable_rows : List CompRow) : ℚ × ℚ × ℚ × ℕ :=
  if comparable_rows = [] then (0, 0, 55, 0)
  else
    let subject_postcode := (postcode.replace " " "").toUpper
    let subject_bedrooms : ℤ := max (if bedrooms = 0 then 2 else bedrooms) 1
    let entries := comparable_rows.filterMap (fun row =>
      let base_price := row.price.getD 0
      if base_price ≤ 0 then none
      else
        let time_adj := timeAdjFn row.monthsOld
        let comp_bedrooms : ℤ :=
          match row.bedrooms with
          | some b => if b = 0 then subject_bedrooms else b
          | none => subject_bedrooms
        let bedroom_adj : ℚ := 1 + ((subject_bedrooms - comp_bedrooms : ℤ) : ℚ) * 0.03
        let type_adj : ℚ := 1 + (propertyTypePremium property_type.toLower
          - propertyTypePremium row.propertyType.toLower)
        let fap := base_price * time_adj * bedroom_adj * type_adj
        some (fap, weightFn subject_postcode subject_bedrooms row))
    if entries = [] then (0, 0, 55, 0)
    else
      let weights := entries.map (fun e => e.2)
      let raw_prices := entries.map (fun e => e.1)
      let weighted_mean := (entries.map (fun e => e.1 * e.2)).sum / weights.sum
      let comparable_average := listMean raw_prices
      let dispersion :=
        if 1 < raw_prices.length ∧ ¬ comparable_average = 0 then
          sqrtFn (listMean (raw_prices.map (fun x => (x - comparable_average) ^ 2)))
            / comparable_average
        else 0.20
      let effective_n := weights.sum ^ 2
        / max ((weights.map (fun w => w * w)).sum) (1 / 1000000)
      let confidence := max 45 (min 94 (72 + effective_n * 2.8 - dispersion * 55))
      (weighted_mean, comparable_average, roundTo 1 confidence, raw_prices.length)

/-- Risk-flag messages of `generate_risk_flags`, one constructor per
distinct string appended by the source. -/
inductive RiskFlag where
  | premiumHigh
  | premiumNoticeable
  | lowDepth
  | moderateConfidence
  | eastLondon
deriving DecidableEq, Repr

/-- `generate_risk_flags(asking_price, estimated_value, postcode,
confidence, comparable_count)` (lines 142-160). -/
def generate_risk_flags (asking_price estimated_value : ℚ) (postcode : String)
    (confidence : ℚ) (comparable_count : ℕ) : List RiskFlag :=
  let premium := (asking_price - estimated_value) / max estimated_value 1
  (if 0.10 < premium then [RiskFlag.premiumHigh]
   else if 0.05 < premium then [RiskFlag.premiumNoticeable]
   else [])
  ++ (if comparable_count < 4 then [RiskFlag.lowDepth] else [])
  ++ (if confidence < 65 then [RiskFlag.moderateConfidence] else [])
  ++ (if (postcode.trim.toUpper).startsWith "E" then [RiskFlag.eastLondon] else [])

/-- The four deal verdict strings. -/
inductive Verdict where
  | strongBuy
  | buy
  | negotiate
  | avoid
deriving DecidableEq, Repr

/-- `calculate_deal_verdict(asking_price, estimated_value, risk_flags)`
(lines 163-174). -/
def calculate_deal_verdict (asking_price estimated_value : ℚ)
    (risk_flags : List RiskFlag) : Verdict :=
  let delta := (estimated_value - asking_price) / max asking_price 1
  let risk_penalty := min ((risk_flags.length : ℚ) * 0.02) 0.10
  let adjusted_edge := delta - risk_penalty
  if 0.06 ≤ adjusted_edge then Verdict.strongBuy
  else if 0.01 ≤ adjusted_edge then Verdict.buy
  else if -0.04 < adjusted_edge then Verdict.negotiate
  else Verdict.avoid

/-- The three negotiation strategy strings of
`generate_negotiation_strategy`, by decreasing premium. -/
inductive Strategy where
  | aggressive
  | moderate
  | nearFair
deriving DecidableEq, Repr

/-- `generate_negotiation_strategy(asking_price, estimated_value)`
(lines 177-183). -/
def generate_negotiation_strategy (asking_price estimated_value : ℚ) : Strategy :=
  let premium := (asking_price - estimated_value) / max estimated_value 1
  if 0.10 < premium then Strategy.aggressive
  else if 0.03 < premium then Strategy.moderate
  else Strategy.nearFair

/-- `ValuationResult` dataclass. -/
structure ValuationResult where
  estimated_value : ℚ
  comparable_average : ℚ
  confidence : ℚ
  risk_flags : List RiskFlag
  negotiation_strategy : Strategy
  deal_verdict : Verdict
deriving DecidableEq, Repr

/-- `estimate_property_value(postcode, property_type, bedrooms,
asking_price, user_type)` (lines 117-139). The comparable rows that
`get_comparable_records` fetches from the external SQLite store are passed
in as `rows`; the transcendental parameters are threaded through to
`engineer_valuation_features`. -/
def estimate_property_value (timeAdjFn : ℚ → ℚ)
    (weightFn : String → ℤ → CompRow → ℚ) (sqrtFn : ℚ → ℚ)
    (postcode property_type : String) (bedrooms : ℤ) (asking_price : ℚ)
    (user_type : String) (rows : List CompRow) : ValuationResult :=
  match engineer_valuation_features timeAdjFn weightFn sqrtFn postcode
      property_type bedrooms rows with
  | (mv0, ca0, confidence, used) =>
    let model_value := if used = 0 then asking_price else mv0
    let comparable_average := if used = 0 then asking_price else ca0
    let user_adj := userMultiplier user_type
    let estimated_value := model_value * user_adj
    let risk_flags := generate_risk_flags asking_price estimated_value postcode
      confidence used
    let negotiation_strategy := generate_negotiation_strategy asking_price
      estimated_value
    let deal_verdict := calculate_deal_verdict asking_price estimated_value
      risk_flags
    ⟨roundTo 2 estimated_value, roundTo 2 comparable_average, confidence,
      risk_flags, negotiation_strategy, deal_verdict⟩

end ScorecardCore

namespace Predictelligence

/-! Embedding of `src/predictelligence` (the single-regressor pipeline):
`PipelineState`, `ModelAgent.run`, `SignalAgent.run`, `EvaluatorAgent.run`.
The SGDRegressor itself is external (scikit-learn): its raw prediction
enters `modelRun` as the parameter `rawPred`, and `partial_fit` only
mutates that external model, so the agent state that matters here is the
training counter `n_trained`. -/

/-- Derived macro summary built by `SignalAgent.run` (`state.macro_signals`).
Only the numeric entries and the derived affordability flag are modelled;
the remaining entries are verbatim pass-throughs of unmodelled raw strings. -/
structure MacroSignals where
  boeRate : ℚ
  inflationRate : ℚ
  seasonFactor : ℚ
  affordabilityImproving : Bool
deriving DecidableEq, Repr

/-- `PipelineState` from `pipeline_state.py`, restricted to the fields the
agents below read or write. `features` keeps only presence (`some ()` once
`PreprocessAgent` has run): its numeric content feeds only the abstracted
regressor. The `boeRate`/`inflationRate`/`seasonFactor` fields model the
`raw_data` dict entries (`none` = key absent, defaults applied at `get`). -/
structure PState where
  postcode : String := "SW1A1AA"
  currentValuation : ℚ := 285000
  comparableAverage : ℚ := 285000
  userType : String := "investor"
  boeRate : Option ℚ := none
  inflationRate : Option ℚ := none
  seasonFactor : Option ℚ := none
  features : Option Unit := none
  target : ℚ := 285000
  prediction : ℚ := 0
  direction : Direction := Direction.sideways
  confidence : ℚ := 0
  investmentSignal : Signal := Signal.hold
  compositeScore : ℚ := 0.5
  predictedChangePct : ℚ := 0
  macroSignals : Option MacroSignals := none
  modelReady : Bool := false
  cycle : ℕ := 0
  error : ℚ := 0
deriving DecidableEq, Repr

/-- `ModelAgent.run` from `agents/model_agent.py` lines 69-129.
`nTrained` is the agent's `_n_trained` before the call, `rawPred` the raw
`self._model.predict(X)[0]` of the external regressor; the returned first
component is the updated `_n_trained`. -/
def modelRun (nTrained : ℕ) (rawPred : ℚ) (st : PState) : ℕ × PState :=
  match st.features with
  | none => (nTrained, st)
  | some _ =>
    let n := nTrained + 1
    let st1 := { st with cycle := n }
    if n < 3 then
      (n, { st1 with modelReady := false, prediction := st.currentValuation,
                     direction := Direction.sideways, confidence := 0,
                     predictedChangePct := 0 })
    else
      let anchor := if 0 < st.target then st.target else 285000
      let p1 := max rawPred (anchor * 0.60)
      let p2 := min p1 (anchor * 1.40)
      let p3 := max p2 50000
      let pred := min p3 5000000
      let current := if ¬ st.currentValuation = 0 then st.currentValuation else st.target
      let dirPct :=
        if 0 < current then
          let rr := pred / current
          ((if 1.005 < rr then Direction.up
            else if rr < 0.995 then Direction.down
            else Direction.sideways),
           roundTo 2 ((rr - 1) * 100))
        else (Direction.sideways, (0 : ℚ))
      (n, { st1 with modelReady := true, prediction := pred,
                     direction := dirPct.1, predictedChangePct := dirPct.2,
                     confidence := min (70 + (n : ℚ) * 2) 95,
                     error := |pred - st.target| })

/-- A sequence of `run()` calls against the same `ModelAgent` singleton:
each call gets a fresh per-invocation state (the pipeline builds one per
`run()`), while `n_trained` is threaded through. Returns the list of
post-model states in call order. -/
def modelRunSeq (nTrained : ℕ) (inputs : List (ℚ × PState)) : List PState :=
  match inputs with
  | [] => []
  | (r, st) :: rest =>
    let out := modelRun nTrained r st
    out.2 :: modelRunSeq out.1 rest

/-- Component 3 of `SignalAgent.run`: affordability trend, the inverse of
the normalised BoE rate (`signal_agent.py` line 44); also reused for the
macro summary's affordability flag (line 88). -/
def affordabilityScoreOf (st : PState) : ℚ :=
  max 0 (min (1 - st.boeRate.getD 5.25 / 15) 1)

/-- The weighted composite of `SignalAgent.run` (`signal_agent.py` lines
35-70): six component scores combined with the `W_*` weights, clamped to
`[0,1]` and rounded to 4 decimals. -/
def signalComposite (st : PState) : ℚ :=
  let dirScore : ℚ :=
    match st.direction with
    | Direction.up => 1
    | Direction.sideways => 0.5
    | Direction.down => 0
  let growthScore := max 0 (min (st.predictedChangePct / 10) 1)
  let inflationScore := max 0 (min (1 - st.inflationRate.getD 3.8 / 10) 1)
  let seasonScore := st.seasonFactor.getD 0.8
  let discountScore :=
    if 0 < st.comparableAverage ∧ 0 < st.currentValuation then
      max 0 (min ((st.comparableAverage - st.currentValuation)
        / st.comparableAverage + 0.5) 1)
    else 0.5
  let composite0 := 0.25 * dirScore + 0.20 * growthScore
    + 0.20 * affordabilityScoreOf st + 0.15 * inflationScore
    + 0.10 * seasonScore + 0.10 * discountScore
  roundTo 4 (max 0 (min composite0 1))

/-- The two-threshold signal rule of `SignalAgent.run` (`signal_agent.py`
lines 74-79, `BUY_THRESHOLD = 0.65`, `SELL_THRESHOLD = 0.45`). -/
def signalOf (composite : ℚ) : Signal :=
  if 0.65 ≤ composite then Signal.buy
  else if 0.45 ≤ composite then Signal.hold
  else Signal.sell

/-- `SignalAgent.run` from `agents/signal_agent.py` lines 29-102: six
component scores, weighted composite clamped to `[0,1]` and rounded to 4
decimals, two-threshold signal, macro summary. The user-insight builders
(pure string templating of the same inputs) are not modelled. -/
def signalRun (st : PState) : PState :=
  { st with compositeScore := signalComposite st,
            investmentSignal := signalOf (signalComposite st),
            macroSignals := some ⟨st.boeRate.getD 5.25, st.inflationRate.getD 3.8,
              st.seasonFactor.getD 0.8, decide (0.6 < affordabilityScoreOf st)⟩ }

/-- A persisted `predictions` row written by `EvaluatorAgent.run`
(timestamp, an external clock read, is not modelled). -/
structure PredictionRecord where
  cycle : ℕ
  postcode : String
  predicted : ℚ
  actual : ℚ
  direction : Direction
  signal : Signal
  confidence : ℚ
  error : ℚ
deriving DecidableEq, Repr

/-- The row `EvaluatorAgent.run` inserts for a given state. -/
def mkRecord (st : PState) : PredictionRecord :=
  ⟨st.cycle, st.postcode, st.prediction, st.target, st.direction,
   st.investmentSignal, st.confidence, st.error⟩

/-- `EvaluatorAgent.run` from `agents/evaluator_agent.py` lines 47-79: the
durable predictions log (the SQLite table, modelled as the append-only
list `log`) gains one row per call unless the state is still warming up. -/
def evaluatorRun (log : List PredictionRecord) (st : PState) :
    List PredictionRecord × PState :=
  if st.modelReady then (log ++ [mkRecord st], st) else (log, st)

/-- Modelled from the spec, section 4.3 table: the weighted composite score
as the specification words it, for comparison against `signalRun`. The
valuation-discount component divides by `comparable_average`; the table is
silent on nonpositive anchors, so the comparison theorem assumes the
positive anchors that `pipeline.py` line 84 and the data model (section 3)
guarantee. -/
def specCompositeScore (st : PState) : ℚ :=
  let rate := st.boeRate.getD 5.25
  let inflation := st.inflationRate.getD 3.8
  let seasonFac := st.seasonFactor.getD 0.8
  let priceDirection : ℚ :=
    match st.direction with
    | Direction.up => 1
    | Direction.sideways => 0.5
    | Direction.down => 0
  let predictedGrowth := max 0 (min (st.predictedChangePct / 10) 1)
  let affordabilityTrend := max 0 (min (1 - rate / 15) 1)
  let inflationStability := max 0 (min (1 - inflation / 10) 1)
  let valuationDiscount := max 0 (min ((st.comparableAverage - st.currentValuation)
    / st.comparableAverage + 0.5) 1)
  roundTo 4 (max 0 (min (0.25 * priceDirection + 0.20 * predictedGrowth
    + 0.20 * affordabilityTrend + 0.15 * inflationStability
    + 0.10 * seasonFac + 0.10 * valuationDiscount) 1))

end Predictelligence

namespace PredictProperty

/-! Embedding of `src/predictelligence-property/predictelligence/agents/model_agent.py`
(the dual-regressor variant). The two SGD regressors are external; their
raw predictions enter as `rawFast`/`rawSlow`. Agent state is the training
counter and the bounded error window (a deque of maxlen 25). -/

/-- The fields of this variant's `PipelineState` read or written by
`ModelAgent.run`. -/
structure PropState where
  postcode : String := ""
  currentValuation : ℚ := 0
  comparableAverage : ℚ := 0
  target : ℚ := 0
  prediction : ℚ := 0
  direction : Direction := Direction.sideways
  confidence : ℚ := 0
  predictedChangePct : ℚ := 0
  modelReady : Bool := false
  cycle : ℕ := 0
  error : ℚ := 0
deriving DecidableEq, Repr

/-- Long-lived `ModelAgent` state: `n_trained` and `error_window`
(most recent last, length at most 25). -/
structure ModelState where
  nTrained : ℕ := 0
  errorWindow : List ℚ := []
deriving DecidableEq, Repr

/-- `ModelAgent.run` from the property variant, lines 42-86: train both
regressors (external), blend 0.65/0.35 once warm, clip to the valuation
anchors, derive direction against `max(current_valuation, 1.0)`, and
calibrate confidence from the rolling error window. -/
def modelRun (ms : ModelState) (rawFast rawSlow : ℚ) (st : PropState) :
    ModelState × PropState :=
  let n := ms.nTrained + 1
  let ready := decide (3 ≤ n)
  let pred0 := if 3 ≤ n then 0.65 * rawFast + 0.35 * rawSlow
               else st.currentValuation
  let fl := max ((min st.currentValuation st.comparableAverage) * 0.65) 50000
  let cap := (max st.currentValuation st.comparableAverage) * 1.6
  let pred := min (max pred0 fl) cap
  let cv := max st.currentValuation 1
  let dir :=
    if cv * 1.005 < pred then Direction.up
    else if pred < cv * 0.995 then Direction.down
    else Direction.sideways
  let pct := (pred - cv) / cv * 100
  let err := |st.target - pred|
  let w1 := ms.errorWindow ++ [err]
  let w := w1.drop (w1.length - 25)
  let errRatio := if w = [] then 0.1 else listMean w / max st.currentValuation 1
  let confRaw := 92 - errRatio * 240 + (min n 200 : ℕ) * 0.05
  let conf := max 45 (min confRaw 95)
  (⟨n, w⟩, { st with cycle := n, modelReady := ready, prediction := pred,
                     direction := dir, predictedChangePct := pct, error := err,
                     confidence := conf })

end PredictProperty

/-! Theorems. Shared helper lemmas come first, then one theorem per claim
(with witness or counterexample theorems where applicable). -/

/-- Projection facts for a `ModelAgent.run` call that does receive an
engineered feature vector: the training counter and `state.cycle` advance
to `n + 1`, the warm-up gate opens exactly at the third cycle, and a
warming-up cycle echoes `current_valuation` with `SIDEWAYS` / confidence 0. -/
theorem pe_modelRun_facts (n : ℕ) (r : ℚ) (st : Predictelligence.PState)
    (hf : st.features = some ()) :
    (Predictelligence.modelRun n r st).1 = n + 1 ∧
    (Predictelligence.modelRun n r st).2.cycle = n + 1 ∧
    ((Predictelligence.modelRun n r st).2.modelReady = true ↔ 3 ≤ n + 1) ∧
    (n + 1 < 3 →
      (Predictelligence.modelRun n r st).2.prediction = st.currentValuation ∧
      (Predictelligence.modelRun n r st).2.direction = Direction.sideways ∧
      (Predictelligence.modelRun n r st).2.confidence = 0) := by
  by_cases h3 : n + 1 < 3 <;>
    simp [Predictelligence.modelRun, hf, h3] <;> omega

/-- Claim C4 counterexample: a `run()` in which a stage failure left the
state without features (the state `ModelAgent.run` receives after
`PreprocessAgent` failed inside `_safe_run`) does not advance the training
counter: `n_trained` stays 0 and the reported `cycle` stays 0, not 1. -/
theorem C4_counterexample :
    Predictelligence.modelRun 0 0 ({} : Predictelligence.PState)
      = (0, ({} : Predictelligence.PState)) ∧
    (Predictelligence.modelRun 0 0 ({} : Predictelligence.PState)).2.cycle = 0 := by
  exact ⟨rfl, rfl⟩

/-- Claim C4 (amended): on every `run()` call in which the model stage
receives an engineered feature vector, `n_trained` (reported as
`state.cycle`) increases by exactly 1; when a stage failure leaves
`features` unset, `ModelAgent.run` skips the training step and leaves both
the counter and the state unchanged. -/
theorem C4_cycle_counter (n : ℕ) (r : ℚ) (st : Predictelligence.PState) :
    (st.features = some () →
      (Predictelligence.modelRun n r st).1 = n + 1 ∧
      (Predictelligence.modelRun n r st).2.cycle = n + 1) ∧
    (st.features = none → Predictelligence.modelRun n r st = (n, st)) := by
  constructor
  · intro hf
    exact ⟨(pe_modelRun_facts n r st hf).1, (pe_modelRun_facts n r st hf).2.1⟩
  · intro hf
    simp [Predictelligence.modelRun, hf]

/-- Witness for C4: a concrete run with features present advances the
counter from 0 to 1. -/
theorem C4_witness :
    (Predictelligence.modelRun 0 0
      ({ features := some () } : Predictelligence.PState)).1 = 1 :=
  ((C4_cycle_counter 0 0 { features := some () }).1 rfl).1

/-- Claim C9 counterexample: a completed warm-up cycle (`model_ready =
false`, the default state of cycles 1 and 2) appends nothing to the
predictions log — `EvaluatorAgent.run` returns at once for warming-up
cycles, so not every completed cycle produces a logged record. -/
theorem C9_counterexample :
    (Predictelligence.evaluatorRun [] ({} : Predictelligence.PState)).1 = [] ∧
    ({} : Predictelligence.PState).modelReady = false := by
  exact ⟨rfl, rfl⟩

/-- Claim C9 (amended): `EvaluatorAgent.run` appends exactly one
`PredictionRecord` to the durable log for every completed cycle whose
state is model-ready, and appends nothing for warming-up cycles. -/
theorem C9_logger (log : List Predictelligence.PredictionRecord)
    (st : Predictelligence.PState) :
    (st.modelReady = true →
      (Predictelligence.evaluatorRun log st).1 = log ++ [Predictelligence.mkRecord st]) ∧
    (st.modelReady = false → (Predictelligence.evaluatorRun log st).1 = log) := by
  constructor <;> intro h <;> simp [Predictelligence.evaluatorRun, h]

/-- Witness for C9: a ready cycle appends exactly its one record. -/
theorem C9_witness :
    (Predictelligence.evaluatorRun []
      ({ modelReady := true } : Predictelligence.PState)).1 =
    [] ++ [Predictelligence.mkRecord ({ modelReady := true } : Predictelligence.PState)] :=
  (C9_logger [] { modelReady := true }).1 rfl

/-- Claim C6: `calculate_deal_verdict` is total into the four verdicts,
and with no risk flags and `asking_price ≥ 1` the verdict is determined by
`adjusted_edge = (estimated_value - asking_price)/asking_price` against
the bands `[0.06, ∞) → STRONG BUY`, `[0.01, 0.06) → BUY`,
`(-0.04, 0.01) → NEGOTIATE`, `(-∞, -0.04] → AVOID`; in particular edges
exactly at 0.06, 0.01 and -0.04 give STRONG BUY, BUY and AVOID. -/
theorem C6_deal_verdict_bands (ask est : ℚ) (flags : List ScorecardCore.RiskFlag)
    (hask : 1 ≤ ask) (hflags : flags = []) :
    (∀ (a e : ℚ) (f : List ScorecardCore.RiskFlag),
      ScorecardCore.calculate_deal_verdict a e f = ScorecardCore.Verdict.strongBuy ∨
      ScorecardCore.calculate_deal_verdict a e f = ScorecardCore.Verdict.buy ∨
      ScorecardCore.calculate_deal_verdict a e f = ScorecardCore.Verdict.negotiate ∨
      ScorecardCore.calculate_deal_verdict a e f = ScorecardCore.Verdict.avoid) ∧
    (ScorecardCore.calculate_deal_verdict ask est flags = ScorecardCore.Verdict.strongBuy
      ↔ 0.06 ≤ (est - ask) / ask) ∧
    (ScorecardCore.calculate_deal_verdict ask est flags = ScorecardCore.Verdict.buy
      ↔ 0.01 ≤ (est - ask) / ask ∧ (est - ask) / ask < 0.06) ∧
    (ScorecardCore.calculate_deal_verdict ask est flags = ScorecardCore.Verdict.negotiate
      ↔ -0.04 < (est - ask) / ask ∧ (est - ask) / ask < 0.01) ∧
    (ScorecardCore.calculate_deal_verdict ask est flags = ScorecardCore.Verdict.avoid
      ↔ (est - ask) / ask ≤ -0.04) := by
  subst hflags
  have hmax : max ask 1 = ask := max_eq_left hask
  refine ⟨fun a e f => ?_, ?_⟩
  · simp only [ScorecardCore.calculate_deal_verdict]
    split_ifs <;> simp
  · simp only [ScorecardCore.calculate_deal_verdict, hmax, List.length_nil,
      Nat.cast_zero, zero_mul]
    have hpen : min (0 : ℚ) 0.10 = 0 := by norm_num
    rw [hpen, sub_zero]
    by_cases h1 : (0.06 : ℚ) ≤ (est - ask) / ask
    · rw [if_pos h1]
      exact ⟨iff_of_true rfl h1,
        iff_of_false (by simp) (fun hc => absurd hc.2 (not_lt.mpr h1)),
        iff_of_false (by simp) (by intro hc; linarith [hc.2]),
        iff_of_false (by simp) (by intro hc; linarith)⟩
    · by_cases h2 : (0.01 : ℚ) ≤ (est - ask) / ask
      · rw [if_neg h1, if_pos h2]
        exact ⟨iff_of_false (by simp) h1,
          iff_of_true rfl ⟨h2, not_le.mp h1⟩,
          iff_of_false (by simp) (by intro hc; linarith [hc.2]),
          iff_of_false (by simp) (by intro hc; linarith)⟩
      · by_cases h3 : (-0.04 : ℚ) < (est - ask) / ask
        · rw [if_neg h1, if_neg h2, if_pos h3]
          exact ⟨iff_of_false (by simp) h1,
            iff_of_false (by simp) (fun hc => h2 hc.1),
            iff_of_true rfl ⟨h3, not_le.mp h2⟩,
            iff_of_false (by simp) (by intro hc; linarith)⟩
        · rw [if_neg h1, if_neg h2, if_neg h3]
          exact ⟨iff_of_false (by simp) h1,
            iff_of_false (by simp) (fun hc => h2 hc.1),
            iff_of_false (by simp) (fun hc => h3 hc.1),
            iff_of_true rfl (not_lt.mp h3)⟩

/-- Witness for C6: an edge of exactly 0.06 (asking 100, estimate 106, no
flags) yields STRONG BUY. -/
theorem C6_witness :
    ScorecardCore.calculate_deal_verdict 100 106 [] = ScorecardCore.Verdict.strongBuy :=
  ((C6_deal_verdict_bands 100 106 [] (by norm_num) rfl).2.1).mpr (by norm_num)

/-- The IQR filter never empties a non-empty price list: short lists pass
through, and the explicit fallback returns the unfiltered list when the
filter would drop everything. -/
theorem filter_outliers_iqr_ne_nil (prices : List ℚ) (h : prices ≠ []) :
    Scorecard.filter_outliers_iqr prices ≠ [] := by
  unfold Scorecard.filter_outliers_iqr
  by_cases h4 : prices.length < 4
  · simpa [h4] using h
  · simp only [h4, if_false]
    split_ifs with hflt
    · exact h
    · exact hflt

/-- Claim C8: `filter_outliers_iqr` returns an already-outlier-free list
unchanged (every price inside `Q1 - 1.5·IQR .. Q3 + 1.5·IQR` of the list
itself), and never returns an empty list for a non-empty input. -/
theorem C8_iqr_filter (prices : List ℚ) :
    ((∀ p ∈ prices,
        Scorecard.quantile prices (1 / 4)
          - (3 / 2) * (Scorecard.quantile prices (3 / 4) - Scorecard.quantile prices (1 / 4)) ≤ p ∧
        p ≤ Scorecard.quantile prices (3 / 4)
          + (3 / 2) * (Scorecard.quantile prices (3 / 4) - Scorecard.quantile prices (1 / 4))) →
      Scorecard.filter_outliers_iqr prices = prices) ∧
    (prices ≠ [] → Scorecard.filter_outliers_iqr prices ≠ []) := by
  refine ⟨fun hin => ?_, filter_outliers_iqr_ne_nil prices⟩
  unfold Scorecard.filter_outliers_iqr
  by_cases h4 : prices.length < 4
  · simp [h4]
  · simp only [h4, if_false]
    have hfe : prices.filter (fun p => decide
        (Scorecard.quantile prices (1 / 4)
          - (3 / 2) * (Scorecard.quantile prices (3 / 4) - Scorecard.quantile prices (1 / 4)) ≤ p ∧
         p ≤ Scorecard.quantile prices (3 / 4)
          + (3 / 2) * (Scorecard.quantile prices (3 / 4) - Scorecard.quantile prices (1 / 4)))) = prices :=
      List.filter_eq_self.mpr (fun a ha => decide_eq_true (hin a ha))
    rw [hfe]
    have hne : prices ≠ [] := by
      intro hnil
      rw [hnil] at h4
      simp at h4
    simp [hne]

/-- The ±0.5% dead-zone rule written on the prediction/valuation ratio (the
src variant's comparison): the resulting direction satisfies the claim's
three characterisations. -/
theorem dirIte_div_spec (cv P : ℚ) (hcv : 0 < cv) :
    ((if 1.005 < P / cv then Direction.up
      else if P / cv < 0.995 then Direction.down
      else Direction.sideways) = Direction.up ↔ cv * 1.005 < P) ∧
    ((if 1.005 < P / cv then Direction.up
      else if P / cv < 0.995 then Direction.down
      else Direction.sideways) = Direction.down ↔ P < cv * 0.995) ∧
    ((if 1.005 < P / cv then Direction.up
      else if P / cv < 0.995 then Direction.down
      else Direction.sideways) = Direction.sideways ↔
      cv * 0.995 ≤ P ∧ P ≤ cv * 1.005) := by
  have h1 : 1.005 < P / cv ↔ cv * 1.005 < P := by rw [lt_div_iff₀ hcv, mul_comm]
  have h2 : P / cv < 0.995 ↔ P < cv * 0.995 := by rw [div_lt_iff₀ hcv, mul_comm]
  by_cases hu : cv * 1.005 < P
  · rw [if_pos (h1.mpr hu)]
    refine ⟨iff_of_true rfl hu, iff_of_false (by simp) (not_lt.mpr (by linarith)),
      iff_of_false (by simp) (fun hc => absurd hc.2 (not_le.mpr hu))⟩
  · by_cases hd : P < cv * 0.995
    · rw [if_neg (fun hh => hu (h1.mp hh)), if_pos (h2.mpr hd)]
      refine ⟨iff_of_false (by simp) hu, iff_of_true rfl hd,
        iff_of_false (by simp) (fun hc => absurd hc.1 (not_le.mpr hd))⟩
    · rw [if_neg (fun hh => hu (h1.mp hh)), if_neg (fun hh => hd (h2.mp hh))]
      refine ⟨iff_of_false (by simp) hu, iff_of_false (by simp) hd,
        iff_of_true rfl ⟨not_lt.mp hd, not_lt.mp hu⟩⟩

/-- The dead-zone rule written directly on products (the property variant's
comparison): same three characterisations. -/
theorem dirIte_mul_spec (cv P : ℚ) (hcv : 0 < cv) :
    ((if cv * 1.005 < P then Direction.up
      else if P < cv * 0.995 then Direction.down
      else Direction.sideways) = Direction.up ↔ cv * 1.005 < P) ∧
    ((if cv * 1.005 < P then Direction.up
      else if P < cv * 0.995 then Direction.down
      else Direction.sideways) = Direction.down ↔ P < cv * 0.995) ∧
    ((if cv * 1.005 < P then Direction.up
      else if P < cv * 0.995 then Direction.down
      else Direction.sideways) = Direction.sideways ↔
      cv * 0.995 ≤ P ∧ P ≤ cv * 1.005) := by
  by_cases hu : cv * 1.005 < P
  · rw [if_pos hu]
    refine ⟨iff_of_true rfl hu, iff_of_false (by simp) (not_lt.mpr (by linarith)),
      iff_of_false (by simp) (fun hc => absurd hc.2 (not_le.mpr hu))⟩
  · by_cases hd : P < cv * 0.995
    · rw [if_neg hu, if_pos hd]
      refine ⟨iff_of_false (by simp) hu, iff_of_true rfl hd,
        iff_of_false (by simp) (fun hc => absurd hc.1 (not_le.mpr hd))⟩
    · rw [if_neg hu, if_neg hd]
      refine ⟨iff_of_false (by simp) hu, iff_of_false (by simp) hd,
        iff_of_true rfl ⟨not_lt.mp hd, not_lt.mp hu⟩⟩

/-- With no usable comparable row (every price missing or nonpositive),
`_engineer_valuation_features` returns the degenerate
`(0, 0, 55, 0)` tuple, for all transcendental parameters. -/
theorem engineer_no_usable (timeAdjFn : ℚ → ℚ)
    (weightFn : String → ℤ → ScorecardCore.CompRow → ℚ) (sqrtFn : ℚ → ℚ)
    (pc pt : String) (bd : ℤ) (rows : List ScorecardCore.CompRow)
    (h : ∀ r ∈ rows, r.price.getD 0 ≤ 0) :
    ScorecardCore.engineer_valuation_features timeAdjFn weightFn sqrtFn pc pt bd rows
      = (0, 0, 55, 0) := by
  unfold ScorecardCore.engineer_valuation_features
  by_cases hr : rows = []
  · simp [hr]
  · simp only [hr, if_false]
    refine Eq.trans (if_pos ?_) rfl
    exact List.filterMap_eq_nil_iff.mpr (fun r hrm => by simp [h r hrm])

/-- Claim C3 counterexample: with zero comparable rows and asking price
200000, the investor persona's `estimated_value` is 198000 (asking price
times the 0.99 user multiplier), not the asking price itself. -/
theorem C3_counterexample :
    (ScorecardCore.estimate_property_value (fun _ => 1) (fun _ _ _ => 1) (fun _ => 1)
      "SW1A1AA" "flat" 2 200000 "investor" []).estimated_value = 198000 ∧
    ¬ ((ScorecardCore.estimate_property_value (fun _ => 1) (fun _ _ _ => 1) (fun _ => 1)
      "SW1A1AA" "flat" 2 200000 "investor" []).estimated_value = 200000) := by
  have h := (engineer_no_usable (fun _ => 1) (fun _ _ _ => 1) (fun _ => 1)
    "SW1A1AA" "flat" 2 [] (by simp))
  constructor <;>
    · unfold ScorecardCore.estimate_property_value
      rw [h]
      norm_num [ScorecardCore.userMultiplier, roundTo, round_eq]

/-- Claim C3 (amended): with zero usable comparable rows,
`estimate_property_value` anchors to the asking price and the fixed low
confidence 55, but applies the user-type multiplier afterwards:
`estimated_value = round(asking_price × multiplier, 2)` (so it equals the
asking price exactly only for multiplier-1 personas such as
first_time_buyer), while `comparable_average = asking_price` and
`confidence = 55` for every persona. -/
theorem C3_zero_comps (timeAdjFn : ℚ → ℚ)
    (weightFn : String → ℤ → ScorecardCore.CompRow → ℚ) (sqrtFn : ℚ → ℚ)
    (pc pt : String) (bd : ℤ) (ask : ℚ) (ut : String)
    (rows : List ScorecardCore.CompRow)
    (h : ∀ r ∈ rows, r.price.getD 0 ≤ 0) :
    (ScorecardCore.estimate_property_value timeAdjFn weightFn sqrtFn pc pt bd ask ut
      rows).estimated_value = roundTo 2 (ask * ScorecardCore.userMultiplier ut) ∧
    (ScorecardCore.estimate_property_value timeAdjFn weightFn sqrtFn pc pt bd ask ut
      rows).comparable_average = roundTo 2 ask ∧
    (ScorecardCore.estimate_property_value timeAdjFn weightFn sqrtFn pc pt bd ask ut
      rows).confidence = 55 := by
  unfold ScorecardCore.estimate_property_value
  rw [engineer_no_usable timeAdjFn weightFn sqrtFn pc pt bd rows h]
  simp

/-- Witness for C3: the spec's scenario holds for the multiplier-1 persona:
no comps and asking price 200000 give an estimate of exactly 200000. -/
theorem C3_witness :
    (ScorecardCore.estimate_property_value (fun _ => 1) (fun _ _ _ => 1) (fun _ => 1)
      "SW1A1AA" "flat" 2 200000 "first_time_buyer" []).estimated_value = 200000 := by
  have h := (C3_zero_comps (fun _ => 1) (fun _ _ _ => 1) (fun _ => 1)
    "SW1A1AA" "flat" 2 200000 "first_time_buyer" [] (by simp)).1
  rw [h]
  have hu : ScorecardCore.userMultiplier "first_time_buyer" = 1 := by
    simp [ScorecardCore.userMultiplier]
    norm_num
  rw [hu]
  norm_num [roundTo, round_eq]

/-- Claim C10: `estimate_value_from_comps` returns `none` exactly when no
comparable carries a price strictly greater than 10000 — prices at or
below 10000 (and missing prices, which Python defaults to the falsy `0`)
are discarded before filtering and valuation, so a non-empty list of such
comps yields `none`, for every size-adjustment and floor area. -/
theorem C10_low_price_comps_dropped (sqrtFn : ℚ → ℚ) (comps : List (Option ℚ))
    (fa : Option ℚ) :
    Scorecard.estimate_value_from_comps sqrtFn comps fa = none ↔
      ∀ c ∈ comps, c.getD 0 ≤ 10000 := by
  unfold Scorecard.estimate_value_from_comps
  by_cases hc : comps = []
  · subst hc
    simp
  · simp only [hc, if_false]
    by_cases hp : (comps.map (fun c => c.getD 0)).filter
        (fun p => decide (¬ p = 0 ∧ 10000 < p)) = []
    · rw [if_pos hp]
      simp only [true_iff]
      intro c hcm
      have hall := List.filter_eq_nil_iff.mp hp (c.getD 0) (List.mem_map_of_mem _ hcm)
      by_contra hgt
      push_neg at hgt
      exact hall (by simp only [decide_eq_true_eq]; exact ⟨by positivity, hgt⟩)
    · rw [if_neg hp]
      constructor
      · intro h
        exact absurd h (by simp)
      · intro hall
        exfalso
        obtain ⟨p, hpmem⟩ := List.exists_mem_of_ne_nil _ hp
        have hsplit := List.mem_filter.mp hpmem
        obtain ⟨c, hcm, hcp⟩ := List.mem_map.mp hsplit.1
        have hple := hall c hcm
        rw [hcp] at hple
        have h2 := hsplit.2
        simp only [decide_eq_true_eq] at h2
        exact absurd hple (not_le.mpr h2.2)

/-- Witness for C8: a concrete outlier-free four-element list is returned
unchanged. -/
theorem C8_witness :
    Scorecard.filter_outliers_iqr [100, 101, 102, 103] = [100, 101, 102, 103] :=
  (C8_iqr_filter [100, 101, 102, 103]).1 (by
    norm_num [Scorecard.quantile, Scorecard.sortedAsc, List.insertionSort,
      List.orderedInsert, pyInt, List.getD]
    simp
    norm_num)

/-- Claim C5 counterexample (property variant): with current_valuation =
1/2 > 0 the code compares against `max(current_valuation, 1.0) = 1`, so a
ready cycle whose clipped prediction (4/5) exceeds
`current_valuation × 1.005` is reported as DOWN, not UP. -/
theorem C5_counterexample :
    (0 : ℚ) < 1 / 2 ∧
    ((1 : ℚ) / 2) * 1.005 < (PredictProperty.modelRun ⟨5, []⟩ (1 / 2) (1 / 2)
      { currentValuation := 1 / 2, comparableAverage := 1 / 2,
        target := 1 / 2 }).2.prediction ∧
    (PredictProperty.modelRun ⟨5, []⟩ (1 / 2) (1 / 2)
      { currentValuation := 1 / 2, comparableAverage := 1 / 2,
        target := 1 / 2 }).2.direction = Direction.down := by
  refine ⟨by norm_num, ?_, ?_⟩ <;>
    · simp only [PredictProperty.modelRun]
      norm_num [min_def, max_def]

/-- Claim C5 (amended): the dead-zone direction rule holds with the
comparison base the code actually uses — `current_valuation` itself in the
src variant (for any positive valuation), and `max(current_valuation, 1.0)`
in the property variant, which coincides with `current_valuation` only for
valuations ≥ 1; under those bases UP/DOWN/SIDEWAYS are exhaustive and
mutually exclusive exactly as claimed. -/
theorem C5_direction_rule :
    (∀ (n : ℕ) (r : ℚ) (st : Predictelligence.PState), st.features = some () →
      0 < st.currentValuation →
      (((Predictelligence.modelRun n r st).2.direction = Direction.up ↔
        st.currentValuation * 1.005 < (Predictelligence.modelRun n r st).2.prediction) ∧
       ((Predictelligence.modelRun n r st).2.direction = Direction.down ↔
        (Predictelligence.modelRun n r st).2.prediction < st.currentValuation * 0.995) ∧
       ((Predictelligence.modelRun n r st).2.direction = Direction.sideways ↔
        st.currentValuation * 0.995 ≤ (Predictelligence.modelRun n r st).2.prediction ∧
        (Predictelligence.modelRun n r st).2.prediction ≤ st.currentValuation * 1.005))) ∧
    (∀ (ms : PredictProperty.ModelState) (rf rs : ℚ) (st : PredictProperty.PropState),
      1 ≤ st.currentValuation →
      (((PredictProperty.modelRun ms rf rs st).2.direction = Direction.up ↔
        st.currentValuation * 1.005 < (PredictProperty.modelRun ms rf rs st).2.prediction) ∧
       ((PredictProperty.modelRun ms rf rs st).2.direction = Direction.down ↔
        (PredictProperty.modelRun ms rf rs st).2.prediction < st.currentValuation * 0.995) ∧
       ((PredictProperty.modelRun ms rf rs st).2.direction = Direction.sideways ↔
        st.currentValuation * 0.995 ≤ (PredictProperty.modelRun ms rf rs st).2.prediction ∧
        (PredictProperty.modelRun ms rf rs st).2.prediction ≤ st.currentValuation * 1.005))) := by
  constructor
  · intro n r st hf hcv
    by_cases h3 : n + 1 < 3
    · simp only [Predictelligence.modelRun, hf, h3, if_true]
      refine ⟨iff_of_false (by simp) (not_lt.mpr (by nlinarith)),
        iff_of_false (by simp) (not_lt.mpr (by nlinarith)),
        iff_of_true (by simp) ⟨by nlinarith, by nlinarith⟩⟩
    · have hne : ¬ st.currentValuation = 0 := ne_of_gt hcv
      simp only [Predictelligence.modelRun, hf, h3, if_false, hne, not_false_iff,
        if_true, hcv]
      exact dirIte_div_spec st.currentValuation _ hcv
  · intro ms rf rs st h1
    have hm : max st.currentValuation 1 = st.currentValuation := max_eq_left h1
    have hcv : 0 < st.currentValuation := lt_of_lt_of_le one_pos h1
    simp only [PredictProperty.modelRun, hm]
    exact dirIte_mul_spec st.currentValuation _ hcv

/-- Witness for C5: a concrete warm-up cycle of the src variant (valuation
285000) reports SIDEWAYS, consistent with the dead-zone rule. -/
theorem C5_witness :
    (Predictelligence.modelRun 0 0
      ({ features := some () } : Predictelligence.PState)).2.direction =
      Direction.sideways := by
  have h := (C5_direction_rule.1 0 0 { features := some () } rfl (by norm_num)).2.2
  refine h.mpr ?_
  simp only [Predictelligence.modelRun]
  norm_num

/-- Claim C2 counterexample (property variant): with both valuation anchors
at 4,000,000 and a large raw model output, the clipped prediction is the
cap 4,000,000 × 1.6 = 6,400,000, outside the claimed absolute band
`[50000, 5000000]` — this variant applies no absolute clamp. -/
theorem C2_counterexample :
    (PredictProperty.modelRun ⟨4, []⟩ 10000000 10000000
      { currentValuation := 4000000, comparableAverage := 4000000,
        target := 4000000 }).2.prediction = 6400000 ∧
    ¬ ((PredictProperty.modelRun ⟨4, []⟩ 10000000 10000000
      { currentValuation := 4000000, comparableAverage := 4000000,
        target := 4000000 }).2.prediction ≤ 5000000) := by
  constructor <;>
    · simp only [PredictProperty.modelRun]
      norm_num [min_def, max_def]

/-- Claim C2 (amended): each variant clips an emitted prediction, but to a
different band than claimed. The src variant guarantees the absolute band
`[50000, 5000000]` (its inner floor/ceiling come from the training target,
0.60×/1.40×, not from the valuation anchors); the property variant
guarantees only the anchor band
`[max(min(cv, ca) × 0.65, 50000), max(cv, ca) × 1.6]` (whenever that band
is non-degenerate) with no absolute clamp above. -/
theorem C2_output_bounds :
    (∀ (n : ℕ) (r : ℚ) (st : Predictelligence.PState), st.features = some () →
      3 ≤ n + 1 →
      50000 ≤ (Predictelligence.modelRun n r st).2.prediction ∧
      (Predictelligence.modelRun n r st).2.prediction ≤ 5000000) ∧
    (∀ (ms : PredictProperty.ModelState) (rf rs : ℚ) (st : PredictProperty.PropState),
      max ((min st.currentValuation st.comparableAverage) * 0.65) 50000
        ≤ (max st.currentValuation st.comparableAverage) * 1.6 →
      max ((min st.currentValuation st.comparableAverage) * 0.65) 50000
        ≤ (PredictProperty.modelRun ms rf rs st).2.prediction ∧
      (PredictProperty.modelRun ms rf rs st).2.prediction
        ≤ (max st.currentValuation st.comparableAverage) * 1.6) := by
  constructor
  · intro n r st hf h3
    have h3' : ¬ (n + 1 < 3) := by omega
    simp only [Predictelligence.modelRun, hf, h3', if_false]
    constructor
    · exact le_min (le_max_right _ _) (by norm_num)
    · exact min_le_right _ _
  · intro ms rf rs st hband
    simp only [PredictProperty.modelRun]
    exact ⟨le_min (le_max_right _ _) hband, min_le_right _ _⟩

/-- Witness for C2: a concrete ready cycle of the src variant lands inside
the absolute band, and a concrete property-variant cycle respects its
anchor band. -/
theorem C2_witness :
    50000 ≤ (Predictelligence.modelRun 2 999999999
      ({ features := some () } : Predictelligence.PState)).2.prediction ∧
    (PredictProperty.modelRun ⟨0, []⟩ 0 0
      { currentValuation := 285000, comparableAverage := 285000,
        target := 285000 }).2.prediction
      ≤ (max (285000 : ℚ) 285000) * 1.6 :=
  ⟨(C2_output_bounds.1 2 999999999 { features := some () } rfl (by norm_num)).1,
   (C2_output_bounds.2 ⟨0, []⟩ 0 0
      { currentValuation := 285000, comparableAverage := 285000,
        target := 285000 } (by norm_num [min_def, max_def])).2⟩

/-- Threading `n_trained` through a sequence of `run()` calls that all
carry engineered features: the k-th call (0-indexed) reports cycle
`n + k + 1`, opens the warm-up gate exactly when `n + k + 1 ≥ 3`, and
while warming up echoes that call's valuation with SIDEWAYS and
confidence 0. -/
theorem pe_modelRunSeq_facts (inputs : List (ℚ × Predictelligence.PState)) :
    ∀ (n k : ℕ), (∀ i ∈ inputs, i.2.features = some ()) → k < inputs.length →
    ((Predictelligence.modelRunSeq n inputs).getD k {}).cycle = n + k + 1 ∧
    (((Predictelligence.modelRunSeq n inputs).getD k {}).modelReady = true ↔
      3 ≤ n + k + 1) ∧
    (n + k + 1 < 3 →
      ((Predictelligence.modelRunSeq n inputs).getD k {}).prediction
        = (inputs.getD k (0, {})).2.currentValuation ∧
      ((Predictelligence.modelRunSeq n inputs).getD k {}).direction
        = Direction.sideways ∧
      ((Predictelligence.modelRunSeq n inputs).getD k {}).confidence = 0) := by
  induction inputs with
  | nil =>
    intro n k hall hk
    simp at hk
  | cons hd tl ih =>
    intro n k hall hk
    obtain ⟨r, st⟩ := hd
    have hf : st.features = some () := hall (r, st) (List.mem_cons_self _ _)
    have hseq : Predictelligence.modelRunSeq n ((r, st) :: tl)
        = (Predictelligence.modelRun n r st).2
          :: Predictelligence.modelRunSeq (Predictelligence.modelRun n r st).1 tl := rfl
    rw [hseq]
    cases k with
    | zero =>
      have hfacts := pe_modelRun_facts n r st hf
      simp only [List.getD_cons_zero, Nat.add_zero]
      exact ⟨hfacts.2.1, hfacts.2.2.1, fun hlt => (hfacts.2.2.2 hlt)⟩
    | succ k0 =>
      have hcnt : (Predictelligence.modelRun n r st).1 = n + 1 :=
        (pe_modelRun_facts n r st hf).1
      rw [hcnt]
      have htl : ∀ i ∈ tl, i.2.features = some () :=
        fun i hi => hall i (List.mem_cons_of_mem _ hi)
      have hk0 : k0 < tl.length := by simpa using hk
      have hrec := ih (n + 1) k0 htl hk0
      simp only [List.getD_cons_succ]
      rw [show n + (k0 + 1) + 1 = n + 1 + k0 + 1 by omega]
      exact hrec

/-- Claim C1 counterexample (property variant): the very first training
cycle — warming up, `model_ready = false` — reports confidence 92.05, not
0: the property variant clamps confidence to `[45, 95]` on every cycle. -/
theorem C1_counterexample :
    (PredictProperty.modelRun ⟨0, []⟩ 0 0
      { currentValuation := 285000, comparableAverage := 285000,
        target := 285000 }).2.modelReady = false ∧
    (PredictProperty.modelRun ⟨0, []⟩ 0 0
      { currentValuation := 285000, comparableAverage := 285000,
        target := 285000 }).2.confidence = 1841 / 20 ∧
    ¬ ((PredictProperty.modelRun ⟨0, []⟩ 0 0
      { currentValuation := 285000, comparableAverage := 285000,
        target := 285000 }).2.confidence = 0) := by
  refine ⟨?_, ?_, ?_⟩ <;>
    · simp only [PredictProperty.modelRun, listMean]
      norm_num [min_def, max_def]

/-- Claim C1 (amended): over any sequence of `run()` calls with engineered
features against a fresh src-variant pipeline, cycles 1 and 2 report
`model_ready = false` with `prediction = current_valuation`, SIDEWAYS and
confidence 0, and from cycle 3 onward `model_ready` is true and stays
true; the property variant opens its gate at cycle 3 the same way, but its
warming-up cycles carry a confidence clamped to at least 45, never 0. -/
theorem C1_warmup_gate :
    (∀ (inputs : List (ℚ × Predictelligence.PState)),
      (∀ i ∈ inputs, i.2.features = some ()) →
      ∀ k, k < inputs.length →
        ((Predictelligence.modelRunSeq 0 inputs).getD k {}).cycle = k + 1 ∧
        (k < 2 →
          ((Predictelligence.modelRunSeq 0 inputs).getD k {}).modelReady = false ∧
          ((Predictelligence.modelRunSeq 0 inputs).getD k {}).prediction
            = (inputs.getD k (0, {})).2.currentValuation ∧
          ((Predictelligence.modelRunSeq 0 inputs).getD k {}).direction
            = Direction.sideways ∧
          ((Predictelligence.modelRunSeq 0 inputs).getD k {}).confidence = 0) ∧
        (2 ≤ k →
          ((Predictelligence.modelRunSeq 0 inputs).getD k {}).modelReady = true)) ∧
    (∀ (ms : PredictProperty.ModelState) (rf rs : ℚ)
      (st : PredictProperty.PropState),
      ((PredictProperty.modelRun ms rf rs st).2.modelReady = true ↔
        3 ≤ ms.nTrained + 1) ∧
      45 ≤ (PredictProperty.modelRun ms rf rs st).2.confidence) := by
  constructor
  · intro inputs hall k hk
    have hfacts := pe_modelRunSeq_facts inputs 0 k hall hk
    have hcyc : ((Predictelligence.modelRunSeq 0 inputs).getD k {}).cycle = k + 1 := by
      rw [hfacts.1]; omega
    refine ⟨hcyc, fun hk2 => ?_, fun hk2 => ?_⟩
    · have hwarm := hfacts.2.2 (by omega)
      have hnr : ¬ (3 ≤ 0 + k + 1) := by omega
      have := hfacts.2.1
      refine ⟨?_, hwarm.1, hwarm.2.1, hwarm.2.2⟩
      cases hb : ((Predictelligence.modelRunSeq 0 inputs).getD k {}).modelReady
      · rfl
      · exact absurd (this.mp hb) hnr
    · exact hfacts.2.1.mpr (by omega)
  · intro ms rf rs st
    constructor
    · simp [PredictProperty.modelRun]
    · simp only [PredictProperty.modelRun]
      exact le_max_left _ _

/-- Witness for C1: a three-cycle sequence with features present has
`model_ready = true` at cycle 3 and `model_ready = false` with confidence
0 at cycle 1. -/
theorem C1_witness :
    ((Predictelligence.modelRunSeq 0
      [(0, { features := some () }), (0, { features := some () }),
       (0, { features := some () })]).getD 2 {}).modelReady = true ∧
    ((Predictelligence.modelRunSeq 0
      [(0, { features := some () }), (0, { features := some () }),
       (0, { features := some () })]).getD 0 {}).confidence = 0 :=
  ⟨(C1_warmup_gate.1 _ (by simp) 2 (by simp)).2.2 (by norm_num),
   ((C1_warmup_gate.1 _ (by simp) 0 (by simp)).2.1 (by norm_num)).2.2.2⟩

/-- Round-half-up to 4 decimals maps `[0,1]` into `[0,1]`. -/
theorem roundTo4_mem_unit (x : ℚ) (h0 : 0 ≤ x) (h1 : x ≤ 1) :
    0 ≤ roundTo 4 x ∧ roundTo 4 x ≤ 1 := by
  unfold roundTo
  constructor
  · apply div_nonneg _ (by norm_num)
    have hz : (0 : ℤ) ≤ round (x * 10 ^ 4) := by
      rw [round_eq]
      apply Int.floor_nonneg.mpr
      positivity
    exact_mod_cast hz
  · rw [div_le_one (by norm_num)]
    have hle : round (x * 10 ^ 4) ≤ ((10 : ℤ) ^ 4) := by
      rw [round_eq]
      have hx : x * 10 ^ 4 + 1 / 2 ≤ 10 ^ 4 + 1 / 2 := by linarith
      calc ⌊x * 10 ^ 4 + 1 / 2⌋ ≤ ⌊(10 ^ 4 : ℚ) + 1 / 2⌋ := Int.floor_le_floor hx
        _ = 10 ^ 4 := by norm_num
    exact_mod_cast hle

/-- The two-threshold, three-bucket rule of `SignalAgent.run`:
BUY at `0.65`, HOLD at `0.45`, SELL below — exhaustive and exclusive. -/
theorem pe_signalOf_spec (c : ℚ) :
    (Predictelligence.signalOf c = Signal.buy ↔ 0.65 ≤ c) ∧
    (Predictelligence.signalOf c = Signal.hold ↔ 0.45 ≤ c ∧ c < 0.65) ∧
    (Predictelligence.signalOf c = Signal.sell ↔ c < 0.45) := by
  unfold Predictelligence.signalOf
  by_cases hb : (0.65 : ℚ) ≤ c
  · rw [if_pos hb]
    exact ⟨iff_of_true rfl hb,
      iff_of_false (by simp) (fun hc => absurd hc.2 (not_lt.mpr hb)),
      iff_of_false (by simp) (not_lt.mpr (by linarith))⟩
  · by_cases hh : (0.45 : ℚ) ≤ c
    · rw [if_neg hb, if_pos hh]
      exact ⟨iff_of_false (by simp) hb, iff_of_true rfl ⟨hh, not_le.mp hb⟩,
        iff_of_false (by simp) (not_lt.mpr hh)⟩
    · rw [if_neg hb, if_neg hh]
      exact ⟨iff_of_false (by simp) hb,
        iff_of_false (by simp) (fun hc => hh hc.1),
        iff_of_true rfl (not_le.mp hh)⟩

/-- The composite score is a 4-decimal rounding of a clamped value. -/
theorem pe_signalComposite_shape (st : Predictelligence.PState) :
    ∃ y, Predictelligence.signalComposite st = roundTo 4 y ∧ 0 ≤ y ∧ y ≤ 1 :=
  ⟨_, rfl, le_max_left _ _, max_le (by norm_num) (min_le_right _ _)⟩

/-- Claim C7: for every pipeline state with positive valuation anchors (as
the pipeline constructor guarantees), `SignalAgent.run` sets
`composite_score` to exactly the spec's weighted sum of the six component
scores clamped to `[0,1]` and rounded to 4 decimals, the score lies in
`[0,1]`, and the investment signal follows the two-threshold rule
`≥ 0.65 → BUY`, `≥ 0.45 → HOLD`, otherwise SELL. -/
theorem C7_signal_rule (st : Predictelligence.PState)
    (hcv : 0 < st.currentValuation) (hca : 0 < st.comparableAverage) :
    (Predictelligence.signalRun st).compositeScore
      = Predictelligence.specCompositeScore st ∧
    0 ≤ (Predictelligence.signalRun st).compositeScore ∧
    (Predictelligence.signalRun st).compositeScore ≤ 1 ∧
    ((Predictelligence.signalRun st).investmentSignal = Signal.buy ↔
      0.65 ≤ (Predictelligence.signalRun st).compositeScore) ∧
    ((Predictelligence.signalRun st).investmentSignal = Signal.hold ↔
      0.45 ≤ (Predictelligence.signalRun st).compositeScore ∧
      (Predictelligence.signalRun st).compositeScore < 0.65) ∧
    ((Predictelligence.signalRun st).investmentSignal = Signal.sell ↔
      (Predictelligence.signalRun st).compositeScore < 0.45) := by
  have hproj : (Predictelligence.signalRun st).compositeScore
      = Predictelligence.signalComposite st := rfl
  have hsig : (Predictelligence.signalRun st).investmentSignal
      = Predictelligence.signalOf (Predictelligence.signalComposite st) := rfl
  have hand : 0 < st.comparableAverage ∧ 0 < st.currentValuation := ⟨hca, hcv⟩
  obtain ⟨y, hy, hy0, hy1⟩ := pe_signalComposite_shape st
  refine ⟨?_, ?_, ?_, ?_, ?_, ?_⟩
  · rw [hproj]
    simp [Predictelligence.signalComposite, Predictelligence.specCompositeScore,
      Predictelligence.affordabilityScoreOf, hand]
  · rw [hproj, hy]
    exact (roundTo4_mem_unit y hy0 hy1).1
  · rw [hproj, hy]
    exact (roundTo4_mem_unit y hy0 hy1).2
  · rw [hsig, hproj]
    exact (pe_signalOf_spec _).1
  · rw [hsig, hproj]
    exact (pe_signalOf_spec _).2.1
  · rw [hsig, hproj]
    exact (pe_signalOf_spec _).2.2

/-- Witness for C7: the default state (valuation anchors 285000, default
macro values) scores 0.478 and lands in the HOLD bucket. -/
theorem C7_witness :
    (Predictelligence.signalRun ({} : Predictelligence.PState)).investmentSignal
      = Signal.hold := by
  have h := (C7_signal_rule {} (by norm_num) (by norm_num)).2.2.2.2.1
  refine h.mpr ?_
  have hc : (Predictelligence.signalRun ({} : Predictelligence.PState)).compositeScore
      = 239 / 500 := by
    show Predictelligence.signalComposite {} = 239 / 500
    simp only [Predictelligence.signalComposite, Predictelligence.affordabilityScoreOf]
    norm_num [roundTo, round_eq, min_def, max_def]
  rw [hc]
  norm_num
